import Mathlib

/-!
Verification of the closeout-runner orchestration layer.

The development shallowly embeds the Python orchestration code of
`python/tools/run_closeout.py` (status classification, defensive report
summarization, report resolution, frontend exit-code propagation) and the
sibling wrapper `scripts/run_closeout.py`, together with a Locator model
taken from the design document, and proves or refutes the documented
properties.

Modelling conventions:
- Parsed JSON documents are values of the inductive type `Json`.  Numeric
  literals are modelled as integers (the orchestration layer never computes
  with report numbers; it only converts them to text).  Objects are
  association lists with distinct keys, mirroring parsed Python dicts.
- Python code that can raise is embedded in `Except PyErr`; an exception is
  an `Except.error`.
- Text conversion `str(x)` / `repr(x)` of parsed-JSON values is modelled by
  `pyStr` / `pyRepr` (repr is modelled for strings without quote or escape
  subtleties, which the summarizer never relies on).
- The external evaluator process is an oracle: an `InvokeOutcome` describes
  how the subprocess invocation ended, and JSON file reading / stdout
  parsing are oracle functions returning `Except`.
-/

/-- A parsed JSON document, as produced by Python's `json` module. -/
inductive Json where
  | null
  | bool (b : Bool)
  | num (n : Int)
  | str (s : String)
  | arr (elems : List Json)
  | obj (fields : List (String × Json))
deriving Repr

/-- Python `repr` of one character inside a single-quoted string literal. -/
def pyEscapeChar (c : Char) : String :=
  if c = '\\' then "\\\\" else if c = '\'' then "\\'" else String.singleton c

/-- Python `repr` body of a string (single-quoted form). -/
def pyEscape (s : String) : String :=
  String.join (s.toList.map pyEscapeChar)

mutual

/-- Python `repr` of a parsed-JSON value. -/
def pyRepr : Json → String
  | .null => "None"
  | .bool true => "True"
  | .bool false => "False"
  | .num n => toString n
  | .str s => "'" ++ pyEscape s ++ "'"
  | .arr xs => "[" ++ pyReprList xs ++ "]"
  | .obj kvs => "\x7b" ++ pyReprFields kvs ++ "\x7d"

/-- Comma-separated `repr`s of list elements. -/
def pyReprList : List Json → String
  | [] => ""
  | [x] => pyRepr x
  | x :: xs => pyRepr x ++ ", " ++ pyReprList xs

/-- Comma-separated `repr`s of dict entries. -/
def pyReprFields : List (String × Json) → String
  | [] => ""
  | [(k, v)] => "'" ++ pyEscape k ++ "': " ++ pyRepr v
  | (k, v) :: kvs => "'" ++ pyEscape k ++ "': " ++ pyRepr v ++ ", " ++ pyReprFields kvs

end

/-- Python `str` of a parsed-JSON value (`str` of a string is itself). -/
def pyStr : Json → String
  | .str s => s
  | v => pyRepr v

/-- Python slice `s[:k]`: a nonnegative bound takes a prefix, a negative
bound counts from the end, clamped at the empty string. -/
def pySliceTo (s : String) (k : Int) : String :=
  if 0 ≤ k then s.take k.toNat else s.take ((s.length : Int) + k).toNat

/-- `_safe_str(x, max_len)`: `str(x)` unchanged when within the cap,
otherwise truncated to `max_len - 3` characters with a `"..."` marker. -/
def safeStr (x : Json) (maxLen : Int := 500) : String :=
  let s := pyStr x
  if (s.length : Int) ≤ maxLen then s else pySliceTo s (maxLen - 3) ++ "..."

/-- `_status_from_exit_code`: the exit-code-to-status classifier. -/
def statusFromExitCode (code : Int) : String :=
  if code = 0 then "GO"
  else if code = 2 then "NO_GO"
  else if code = 3 then "NEEDS_DATA"
  else "ERROR"

/-- Exceptions the embedded Python fragments can raise. -/
inductive PyErr where
  | attributeError
  | typeError
deriving Repr, DecidableEq

/-- Python `d.get(key, dflt)` on a dict value (association-list lookup). -/
def pyGetD (kvs : List (String × Json)) (key : String) (dflt : Json) : Json :=
  (List.lookup key kvs).getD dflt

/-- Python `d.get(key, dflt)` on an arbitrary value: only dicts have
`.get`; every other value raises `AttributeError`. -/
def pyGet (d : Json) (key : String) (dflt : Json) : Except PyErr Json :=
  match d with
  | .obj kvs => .ok (pyGetD kvs key dflt)
  | _ => .error .attributeError

/-- The tally key chosen for one issue entry:
`it.get("kind", "Unknown") if isinstance(it, dict) else "Unknown"`. -/
def issueKind (it : Json) : Json :=
  match it with
  | .obj kvs => pyGetD kvs "kind" (.str "Unknown")
  | _ => .str "Unknown"

/-- One pass of the detail-line loop: a dict entry whose code or message
converts to a nonempty string is rendered as a stripped
`"- <code>: <message>"` line; every other entry is skipped. -/
def renderIssue (it : Json) : Option String :=
  match it with
  | .obj kvs =>
    let code := safeStr (pyGetD kvs "code" (.str ""))
    let msg := safeStr (pyGetD kvs "message" (.str "")) 120
    if code = "" ∧ msg = "" then none
    else some (("- " ++ code ++ ": " ++ msg).trim)
  | _ => none

/-- The detail lines: only the first five issue entries are examined. -/
def topLinesOf (issues : List Json) : List String :=
  (issues.take 5).filterMap renderIssue

/-- `"\n".join(top_lines) if top_lines else "- (none)"`. -/
def topTxtOf (issues : List Json) : String :=
  let tl := topLinesOf issues
  if tl.isEmpty then "- (none)" else String.intercalate "\n" tl

/-- Python hashability of a parsed-JSON value: lists and dicts are
unhashable and cannot be dict keys. -/
def hashableKey : Json → Bool
  | .arr _ => false
  | .obj _ => false
  | _ => true

/-- Python `==` restricted to the hashable parsed-JSON values (dict-key
equality; note `True == 1` and `False == 0`).  Lists and dicts never occur
as keys, so the catch-all is irrelevant to the embedding. -/
def keyEq : Json → Json → Bool
  | .null, .null => true
  | .bool a, .bool b => decide (a = b)
  | .bool a, .num n => decide ((if a then (1 : Int) else 0) = n)
  | .num n, .bool a => decide (n = if a then (1 : Int) else 0)
  | .num m, .num n => decide (m = n)
  | .str s, .str t => decide (s = t)
  | _, _ => false

/-- `counts[k] = counts.get(k, 0) + 1` on an insertion-ordered dict: the
matching bucket is incremented (keeping its originally inserted key
object), or a fresh bucket is appended. -/
def bumpCount (counts : List (Json × Nat)) (k : Json) : List (Json × Nat) :=
  match counts with
  | [] => [(k, 1)]
  | (k₀, v) :: rest =>
    if keyEq k₀ k then (k₀, v + 1) :: rest else (k₀, v) :: bumpCount rest k

/-- The tally loop over the issue entries; hashing an unhashable kind key
raises `TypeError`, exactly where Python evaluates `counts.get(k, 0)`. -/
def tallyFrom (counts : List (Json × Nat)) : List Json → Except PyErr (List (Json × Nat))
  | [] => .ok counts
  | it :: rest =>
    let k := issueKind it
    if hashableKey k then tallyFrom (bumpCount counts k) rest
    else .error .typeError

/-- The issue tally `counts`, starting from the empty dict. -/
def tally (issues : List Json) : Except PyErr (List (Json × Nat)) :=
  tallyFrom [] issues

/-- The count stored under a key (0 when the key is absent). -/
def lookupCount (counts : List (Json × Nat)) (k : Json) : Nat :=
  match counts.find? (fun kv => keyEq kv.1 k) with
  | some kv => kv.2
  | none => 0

/-- How many issue entries fall into the bucket of key `k`. -/
def countOf (issues : List Json) (k : Json) : Nat :=
  (issues.filter (fun it => keyEq (issueKind it) k)).length

/-- Is this tally key a Python string? -/
def keyIsStr : Json → Bool
  | .str _ => true
  | _ => false

/-- Is this tally key numeric under Python comparison (int or bool)? -/
def keyIsNum : Json → Bool
  | .num _ => true
  | .bool _ => true
  | _ => false

/-- The string content of a string key (irrelevant default otherwise). -/
def keyStrVal : Json → String
  | .str s => s
  | _ => ""

/-- Numeric comparison value of a numeric key (`True` compares as 1). -/
def keyNumVal : Json → Int
  | .num n => n
  | .bool b => if b then 1 else 0
  | _ => 0

/-- Ordering of tally entries by string key. -/
def strKeyLe (a b : Json × Nat) : Prop := keyStrVal a.1 ≤ keyStrVal b.1

/-- Ordering of tally entries by numeric key. -/
def numKeyLe (a b : Json × Nat) : Prop := keyNumVal a.1 ≤ keyNumVal b.1

instance : DecidableRel strKeyLe := fun a b => by
  unfold strKeyLe; infer_instance

instance : DecidableRel numKeyLe := fun a b => by
  unfold numKeyLe; infer_instance

/-- `sorted(counts.items())`: comparing at most one item needs no
comparison; uniformly string or uniformly numeric keys sort ascending
(keys are pairwise distinct, so only keys are compared); any other key mix
raises `TypeError` on the first cross-type comparison. -/
def sortCounts (counts : List (Json × Nat)) : Except PyErr (List (Json × Nat)) :=
  if counts.length ≤ 1 then .ok counts
  else if counts.all (fun kv => keyIsStr kv.1) then
    .ok (List.insertionSort strKeyLe counts)
  else if counts.all (fun kv => keyIsNum kv.1) then
    .ok (List.insertionSort numKeyLe counts)
  else .error .typeError

/-- One `f"{k}={v}"` fragment of the issue-count line. -/
def countItemTxt (kv : Json × Nat) : String :=
  pyStr kv.1 ++ "=" ++ toString kv.2

/-- `", ".join(f"{k}={v}" for k, v in sorted(counts.items())) if counts
else "none"`. -/
def countsTxtOf (counts : List (Json × Nat)) : Except PyErr String :=
  if counts.isEmpty then .ok "none"
  else (sortCounts counts).map (fun sc => String.intercalate ", " (sc.map countItemTxt))

/-- `issues if isinstance(issues, list) else []`: the entry list both
loops run over (empty when `issues` is not a list). -/
def issueListOf (issues : Json) : List Json :=
  match issues with
  | .arr xs => xs
  | _ => []

/-- `_summarize_report`: the defensive human-readable summary.  Raising
follows the Python evaluation order: field access on a non-dict report,
then on a non-dict `gates`, then hashing an unhashable kind, then sorting
incomparable keys. -/
def summarizeReport (report : Json) : Except PyErr String := do
  let gates ← pyGet report "gates" (.obj [])
  let issues ← pyGet report "issues" (.arr [])
  let massGate ← pyGet gates "mass_gate" (.str "Unknown")
  let diskGate ← pyGet gates "disk_area_gate" (.str "Unknown")
  let powerGate ← pyGet gates "power_gate" (.str "Unknown")
  let issueList := issueListOf issues
  let counts ← tally issueList
  let topTxt := topTxtOf issueList
  let countsTxt ← countsTxtOf counts
  return "Closeout Summary\n- Gates: mass=" ++ pyStr massGate ++
    ", disk_area=" ++ pyStr diskGate ++ ", power=" ++ pyStr powerGate ++
    "\n- Issue counts: " ++ countsTxt ++
    "\n- Top issues:\n" ++ topTxt ++ "\n"

/-- The immutable result record built by `run_closeout`. -/
structure RunResult where
  exit_code : Int
  status : String
  out_path : Option String
  stdout : String
  stderr : String
  out_json : Option Json
deriving Repr

/-- How the synchronous subprocess invocation of the evaluator ended:
it ran to completion with an exit code and captured streams, it exceeded
the timeout (`subprocess.TimeoutExpired`), or the OS could not spawn it. -/
inductive InvokeOutcome where
  | completed (exitCode : Int) (stdout stderr : String)
  | timeout
  | spawnFailure
deriving Repr

/-- Local orchestration failures raised out of `run_closeout`. -/
inductive OrchError where
  | fileNotFound
  | timeoutExpired
  | spawnFailure
deriving Repr, DecidableEq

/-- The argument list assembled for the evaluator binary. -/
def buildCmd (binPath inPath : String) (outPath : Option String)
    (pretty emitNull requireMassBreakdown : Bool) : List String :=
  [binPath, "--in", inPath, "--out", outPath.getD "-",
   "--pretty", if pretty then "1" else "0",
   "--emit-null", if emitNull then "1" else "0",
   "--require-mass-breakdown", if requireMassBreakdown then "1" else "0"]

/-- `run_closeout`: raises `FileNotFoundError` when the binary path does
not exist, otherwise runs the evaluator; on completion it classifies the
exit code and resolves the report from the `--out` file when an output
path was given, else from captured stdout, converting every resolution
failure into an absent report.  `parseStdout` and `readFile` are oracles
for `json.loads` on the captured stdout and for `_read_json_file` on the
output path; an `Except.error` is a raised exception, caught here. -/
def run_closeout (parseStdout : String → Except String Json)
    (readFile : String → Except String Json)
    (binExists : Bool) (outcome : InvokeOutcome) (outPath : Option String) :
    Except OrchError RunResult :=
  if binExists = false then .error .fileNotFound
  else
    match outcome with
    | .timeout => .error .timeoutExpired
    | .spawnFailure => .error .spawnFailure
    | .completed code out err =>
      let status := statusFromExitCode code
      let reportJson : Option Json :=
        match outPath with
        | some p => match readFile p with | .ok j => some j | .error _ => none
        | none => match parseStdout out with | .ok j => some j | .error _ => none
      .ok ⟨code, status, outPath, out, err, reportJson⟩

/-- `main` of `python/tools/run_closeout.py`: orchestration failures from
`run_closeout` are caught and turned into the local-error return value 1;
on success the summary is written (the summarizer call sits outside the
`try` block, so a summarizer exception propagates uncaught — modelled as
`Except.error`) and the evaluator exit code is returned. -/
def mainRun (parseStdout : String → Except String Json)
    (readFile : String → Except String Json)
    (binExists : Bool) (outcome : InvokeOutcome) (outPath : Option String) :
    Except PyErr Int :=
  match run_closeout parseStdout readFile binExists outcome outPath with
  | .error _ => .ok 1
  | .ok res =>
    match res.out_json with
    | some j =>
      match summarizeReport j with
      | .ok _ => .ok res.exit_code
      | .error e => .error e
    | none => .ok res.exit_code

/-- `run_closeout_demo` of `scripts/run_closeout.py`: the evaluator exit
code on completion, 1 when the binary cannot be found or any other
exception is raised while running it (that wrapper sets no timeout, so a
timeout could only surface through the generic handler). -/
def run_closeout_demo (outcome : InvokeOutcome) : Int :=
  match outcome with
  | .completed code _ _ => code
  | .spawnFailure => 1
  | .timeout => 1

/-- Locator failure. -/
inductive LocError where
  | binaryNotFound
deriving Repr, DecidableEq

/-- Modelled from the spec: the Locator's three-stage search
(`resolve(explicit?)`) is not implemented under `src/` — the sources only
take an explicit `--bin` argument validated by `run_closeout`, or a single
defaulted path — so stages (2) and (3) are modelled from the design
document: first the explicit argument when provided, then the system
search-path lookup under the evaluator's conventional name (`pathLookup`
is that lookup's result), then the first existing entry of a fixed ordered
candidate list, and `BinaryNotFound` when all three miss. -/
def resolveBinary (explicit : Option String) (pathLookup : Option String)
    (candidateExists : String → Bool) (candidates : List String) :
    Except LocError String :=
  match explicit with
  | some p => .ok p
  | none =>
    match pathLookup with
    | some p => .ok p
    | none =>
      match candidates.find? candidateExists with
      | some p => .ok p
      | none => .error .binaryNotFound

/-- Is the value a record (a parsed JSON object / Python dict)? -/
def isRecord : Json → Bool
  | .obj _ => true
  | _ => false

/-- An issue entry whose tally key is guaranteed to be a string: any
non-record, or a record whose `kind` is absent or a string. -/
def goodKindEntry (it : Json) : Bool :=
  match it with
  | .obj kvs =>
    match List.lookup "kind" kvs with
    | none => true
    | some (.str _) => true
    | some _ => false
  | _ => true

/-- Sufficient well-shapedness for the summarizer not to raise: the report
is an object, its `gates` field (when present) is an object, and every
issue entry has a string tally key. -/
def safeReport (report : Json) : Bool :=
  match report with
  | .obj kvs =>
    (match List.lookup "gates" kvs with
     | none => true
     | some (.obj _) => true
     | some _ => false) &&
    (match List.lookup "issues" kvs with
     | some (.arr xs) => xs.all goodKindEntry
     | _ => true)
  | _ => false

/-- An oracle whose every call raises (file unreadable / stdout unparsable). -/
def failOracle : String → Except String Json := fun _ => .error "failure"

/-- An oracle whose every call parses to the empty report object. -/
def okOracle : String → Except String Json := fun _ => .ok (.obj [])

/-- A 500-character message. -/
def longMsg : String := String.mk (List.replicate 500 'a')

/-- Canonical form of a Python dict key: `True`/`False` collapse onto the
integers 1/0 (Python `==` semantics); unhashable values have no key form. -/
inductive KeyCanon where
  | knull
  | kint (n : Int)
  | kstr (s : String)
  | knone
deriving Repr, DecidableEq

/-- The canonical form of a parsed-JSON value as a dict key. -/
def keyCanon : Json → KeyCanon
  | .null => .knull
  | .bool b => .kint (if b then 1 else 0)
  | .num n => .kint n
  | .str s => .kstr s
  | .arr _ => .knone
  | .obj _ => .knone

instance : IsTotal (Json × Nat) strKeyLe :=
  ⟨fun a b => le_total (keyStrVal a.1) (keyStrVal b.1)⟩

instance : IsTrans (Json × Nat) strKeyLe :=
  ⟨fun _ _ _ h₁ h₂ => le_trans h₁ h₂⟩

/-- C1: the status classifier is a pure total function of the exit code:
`classify(e)` is GO exactly when `e = 0`, NO_GO exactly when `e = 2`,
NEEDS_DATA exactly when `e = 3`, and ERROR exactly for every other
integer. -/
theorem classify_exit_code_total (e : Int) :
    (statusFromExitCode e = "GO" ↔ e = 0) ∧
    (statusFromExitCode e = "NO_GO" ↔ e = 2) ∧
    (statusFromExitCode e = "NEEDS_DATA" ↔ e = 3) ∧
    (statusFromExitCode e = "ERROR" ↔ (e ≠ 0 ∧ e ≠ 2 ∧ e ≠ 3)) := by
  unfold statusFromExitCode
  by_cases h0 : e = 0 <;> by_cases h2 : e = 2 <;> by_cases h3 : e = 3 <;>
    simp [h0, h2, h3]

/-- Witness for C1 at the four representative exit codes. -/
theorem classify_exit_code_total_witness :
    statusFromExitCode 0 = "GO" ∧ statusFromExitCode 2 = "NO_GO" ∧
    statusFromExitCode 3 = "NEEDS_DATA" ∧ statusFromExitCode 5 = "ERROR" :=
  ⟨(classify_exit_code_total 0).1.mpr rfl,
   (classify_exit_code_total 2).2.1.mpr rfl,
   (classify_exit_code_total 3).2.2.1.mpr rfl,
   (classify_exit_code_total 5).2.2.2.mpr (by decide)⟩

/-- Counterexample to C2: called on `null` (Python `None`), the summarizer
raises `AttributeError` at `report.get` instead of returning a string. -/
theorem summarizer_raises_on_null :
    summarizeReport .null = .error .attributeError := rfl

/-- Counterexample to C9: a present but non-string gate verdict is rendered
by its string conversion (`mass=42`), not as the literal `Unknown`. -/
theorem nonstring_gate_not_unknown :
    summarizeReport (.obj [("gates", .obj [("mass_gate", .num 42)])]) =
      .ok "Closeout Summary\n- Gates: mass=42, disk_area=Unknown, power=Unknown\n- Issue counts: none\n- Top issues:\n- (none)\n" ∧
    summarizeReport (.obj [("gates", .obj [("mass_gate", .num 42)])]) ≠
      .ok "Closeout Summary\n- Gates: mass=Unknown, disk_area=Unknown, power=Unknown\n- Issue counts: none\n- Top issues:\n- (none)\n" := by
  refine ⟨rfl, fun h => ?_⟩
  have hgood : summarizeReport (.obj [("gates", .obj [("mass_gate", .num 42)])]) =
      .ok "Closeout Summary\n- Gates: mass=42, disk_area=Unknown, power=Unknown\n- Issue counts: none\n- Top issues:\n- (none)\n" := rfl
  rw [hgood] at h
  exact absurd (Except.ok.inj h) (by decide)

/-- Counterexample to C7: an issue whose `kind` is present but invalid
(the integer 7) is tallied under its own key `7`, not under the default
`Unknown` bucket. -/
theorem invalid_kind_not_unknown_bucket :
    tally [.obj [("kind", .num 7)]] = .ok [(.num 7, 1)] ∧
    lookupCount [(.num 7, 1)] (.str "Unknown") = 0 ∧
    summarizeReport (.obj [("issues", .arr [.obj [("kind", .num 7)]])]) =
      .ok "Closeout Summary\n- Gates: mass=Unknown, disk_area=Unknown, power=Unknown\n- Issue counts: 7=1\n- Top issues:\n- (none)\n" :=
  ⟨rfl, rfl, rfl⟩

/-- Counterexample to C6: seven well-formed record issues (with `code`,
`message` and `kind` fields of the right types, but empty code and
message) yield zero detail lines and the `- (none)` placeholder, not
exactly five detail lines. -/
theorem seven_record_issues_zero_lines :
    (topLinesOf (List.replicate 7
      (.obj [("code", .str ""), ("message", .str ""), ("kind", .str "A")]))).length = 0 ∧
    summarizeReport (.obj [("issues", .arr (List.replicate 7
      (.obj [("code", .str ""), ("message", .str ""), ("kind", .str "A")])))]) =
      .ok "Closeout Summary\n- Gates: mass=Unknown, disk_area=Unknown, power=Unknown\n- Issue counts: A=7\n- Top issues:\n- (none)\n" :=
  ⟨rfl, rfl⟩

/-- Counterexample to C3: the local-error exit code 1 coincides with an
evaluator decision exit code that is forwarded verbatim, so a caller
seeing 1 cannot tell an orchestration failure from an evaluator run that
exited with code 1. -/
theorem frontend_exit_one_ambiguous :
    mainRun failOracle failOracle true (.completed 1 "" "") none = .ok 1 ∧
    mainRun failOracle failOracle false (.completed 1 "" "") none = .ok 1 ∧
    mainRun failOracle failOracle true .spawnFailure none = .ok 1 :=
  ⟨rfl, rfl, rfl⟩

/-- C5: the Locator tries the explicit argument first (chosen whatever the
search path and candidate list hold), then the search-path lookup, then
the first existing conventional candidate, and fails with `BinaryNotFound`
only when all three miss; the explicitly chosen path is validated before
use by `run_closeout`, which raises `FileNotFoundError` when it does not
exist. -/
theorem locator_search_order :
    (∀ p pl ce cs, resolveBinary (some p) pl ce cs = .ok p) ∧
    (∀ q ce cs, resolveBinary none (some q) ce cs = .ok q) ∧
    (∀ ce cs, resolveBinary none none ce cs =
      (cs.find? ce).elim (.error .binaryNotFound) Except.ok) ∧
    (∀ pf rf oc op, run_closeout pf rf false oc op = .error .fileNotFound) := by
  refine ⟨fun p pl ce cs => rfl, fun q ce cs => rfl, fun ce cs => ?_,
    fun pf rf oc op => rfl⟩
  cases h : cs.find? ce <;> simp [resolveBinary, h]

/-- C10: with an explicit output path the report comes only from the file
oracle — the result is fully determined with `out_json` the caught file
read, the captured streams and exit code untouched — and the stdout parse
oracle is never consulted (no fallback between the two channels). -/
theorem explicit_out_path_exclusive (pf₁ pf₂ rf : String → Except String Json)
    (c : Int) (out err p : String) :
    run_closeout pf₁ rf true (.completed c out err) (some p) =
      .ok ⟨c, statusFromExitCode c, some p, out, err, (rf p).toOption⟩ ∧
    run_closeout pf₁ rf true (.completed c out err) (some p) =
      run_closeout pf₂ rf true (.completed c out err) (some p) := by
  constructor <;> cases h : rf p <;> simp [run_closeout, h, Except.toOption]

/-- C4: for every completed invocation the status is the classifier
applied to the exit code, whatever the report oracles return; replacing
the report oracles (for instance by always-failing ones) never turns the
call into an error and never changes exit code, status, captured stdout or
stderr — only the resolved report can differ. -/
theorem status_independent_of_report_resolution :
    (∀ pf rf be oc op res, run_closeout pf rf be oc op = .ok res →
      res.status = statusFromExitCode res.exit_code) ∧
    (∀ pf₁ rf₁ pf₂ rf₂ c out err op,
      ∃ r₁ r₂, run_closeout pf₁ rf₁ true (.completed c out err) op = .ok r₁ ∧
        run_closeout pf₂ rf₂ true (.completed c out err) op = .ok r₂ ∧
        r₁.status = statusFromExitCode c ∧ r₁.exit_code = c ∧
        r₂.status = r₁.status ∧ r₂.exit_code = r₁.exit_code ∧
        r₂.stdout = r₁.stdout ∧ r₂.stderr = r₁.stderr ∧
        r₂.out_path = r₁.out_path) := by
  constructor
  · intro pf rf be oc op res h
    cases be with
    | false => exact absurd h (by simp [run_closeout])
    | true =>
      cases oc with
      | timeout => exact absurd h (by simp [run_closeout])
      | spawnFailure => exact absurd h (by simp [run_closeout])
      | completed c out err =>
        simp only [run_closeout] at h
        cases h' : res.out_json <;>
          · obtain rfl := (Except.ok.inj h).symm
            rfl
  · intro pf₁ rf₁ pf₂ rf₂ c out err op
    exact ⟨_, _, rfl, rfl, rfl, rfl, rfl, rfl, rfl, rfl, rfl⟩

/-- Witness for C4: a completed run with exit code 5 and failing report
resolution still carries status `ERROR`. -/
theorem status_independent_of_report_resolution_witness :
    (RunResult.mk 5 (statusFromExitCode 5) none "" "" none).status =
      statusFromExitCode (RunResult.mk 5 (statusFromExitCode 5) none "" "" none).exit_code :=
  status_independent_of_report_resolution.1 failOracle failOracle true
    (.completed 5 "" "") none _ rfl

lemma keyIsStr_hashable {k : Json} (h : keyIsStr k = true) : hashableKey k = true := by
  cases k <;> simp [keyIsStr, hashableKey] at h ⊢

lemma goodKind_str {it : Json} (h : goodKindEntry it = true) :
    keyIsStr (issueKind it) = true := by
  cases it with
  | obj kvs =>
    have h' : (match List.lookup "kind" kvs with
        | none => true | some (.str _) => true | some _ => false) = true := h
    show keyIsStr ((List.lookup "kind" kvs).getD (Json.str "Unknown")) = true
    cases hk : List.lookup "kind" kvs with
    | none => rfl
    | some v =>
      rw [hk] at h'
      cases v with
      | str s => rfl
      | null => exact absurd h' (by simp)
      | bool b => exact absurd h' (by simp)
      | num n => exact absurd h' (by simp)
      | arr a => exact absurd h' (by simp)
      | obj o => exact absurd h' (by simp)
  | null => rfl
  | bool b => rfl
  | num n => rfl
  | str s => rfl
  | arr xs => rfl

lemma bumpCount_all {P : Json → Prop} (k : Json) (hk : P k) :
    ∀ (c : List (Json × Nat)), (∀ kv ∈ c, P kv.1) → ∀ kv ∈ bumpCount c k, P kv.1
  | [], _, kv, hkv => by
    simp [bumpCount] at hkv
    rw [hkv]; exact hk
  | (k₀, v) :: tl, hc, kv, hkv => by
    simp only [bumpCount] at hkv
    by_cases h : keyEq k₀ k = true
    · rw [if_pos h] at hkv
      rcases List.mem_cons.mp hkv with h1 | h1
      · rw [h1]; exact hc (k₀, v) (List.mem_cons_self _ _)
      · exact hc _ (List.mem_cons_of_mem _ h1)
    · rw [if_neg h] at hkv
      rcases List.mem_cons.mp hkv with h1 | h1
      · rw [h1]; exact hc (k₀, v) (List.mem_cons_self _ _)
      · exact bumpCount_all k hk tl (fun kv' hkv' => hc kv' (List.mem_cons_of_mem _ hkv')) kv h1

lemma tallyFrom_ok : ∀ (xs : List Json) (c : List (Json × Nat)),
    (∀ it ∈ xs, keyIsStr (issueKind it) = true) →
    (∀ kv ∈ c, keyIsStr kv.1 = true) →
    ∃ c', tallyFrom c xs = .ok c' ∧ ∀ kv ∈ c', keyIsStr kv.1 = true
  | [], c, _, hc => ⟨c, rfl, hc⟩
  | it :: rest, c, hxs, hc => by
    have hkind : keyIsStr (issueKind it) = true := hxs it (List.mem_cons_self _ _)
    have hhash : hashableKey (issueKind it) = true := keyIsStr_hashable hkind
    have hrest : ∀ i ∈ rest, keyIsStr (issueKind i) = true :=
      fun i hi => hxs i (List.mem_cons_of_mem _ hi)
    have hbump : ∀ kv ∈ bumpCount c (issueKind it), keyIsStr kv.1 = true :=
      bumpCount_all (P := fun j => keyIsStr j = true) _ hkind c hc
    obtain ⟨c', h1, h2⟩ := tallyFrom_ok rest (bumpCount c (issueKind it)) hrest hbump
    exact ⟨c', by simp [tallyFrom, hhash, h1], h2⟩

lemma sortCounts_ok {c : List (Json × Nat)}
    (hc : ∀ kv ∈ c, keyIsStr kv.1 = true) : ∃ c', sortCounts c = .ok c' := by
  unfold sortCounts
  by_cases hl : c.length ≤ 1
  · exact ⟨c, by simp [hl]⟩
  · have hall : c.all (fun kv => keyIsStr kv.1) = true := List.all_eq_true.mpr hc
    refine ⟨List.insertionSort strKeyLe c, ?_⟩
    simp [hl, hall]

lemma countsTxtOf_ok {c : List (Json × Nat)}
    (hc : ∀ kv ∈ c, keyIsStr kv.1 = true) : ∃ s, countsTxtOf c = .ok s := by
  unfold countsTxtOf
  by_cases he : c.isEmpty = true
  · exact ⟨"none", by simp [he]⟩
  · obtain ⟨c', hc'⟩ := sortCounts_ok hc
    refine ⟨String.intercalate ", " (c'.map countItemTxt), ?_⟩
    simp [he, hc', Except.map]

/-- C2 (amended): the Summarizer returns a string for every report that is
an object whose `gates` field, when present, is an object and whose issue
entries all carry a string tally key (any non-record, or a record whose
`kind` is absent or a string); outside these conditions it can raise — on
`null` it raises `AttributeError` (see the counterexample theorem). -/
theorem summarizer_total_on_safe_reports (r : Json) (h : safeReport r = true) :
    ∃ s, summarizeReport r = .ok s := by
  cases r with
  | obj kvs =>
    simp only [safeReport, Bool.and_eq_true] at h
    obtain ⟨hg, hi⟩ := h
    obtain ⟨g, hG⟩ : ∃ g, pyGetD kvs "gates" (Json.obj []) = Json.obj g := by
      unfold pyGetD
      cases hk : List.lookup "gates" kvs with
      | none => exact ⟨[], rfl⟩
      | some v =>
        rw [hk] at hg
        cases v with
        | obj g₂ => exact ⟨g₂, rfl⟩
        | null => exact absurd hg (by simp)
        | bool b => exact absurd hg (by simp)
        | num n => exact absurd hg (by simp)
        | str s => exact absurd hg (by simp)
        | arr a => exact absurd hg (by simp)
    have hIL : ∀ it ∈ issueListOf (pyGetD kvs "issues" (Json.arr [])),
        keyIsStr (issueKind it) = true := by
      unfold pyGetD issueListOf
      cases hk : List.lookup "issues" kvs with
      | none => intro it hit; simp at hit
      | some v =>
        rw [hk] at hi
        cases v with
        | arr xs =>
          intro it hit
          exact goodKind_str (List.all_eq_true.mp hi it hit)
        | null => intro it hit; simp at hit
        | bool b => intro it hit; simp at hit
        | num n => intro it hit; simp at hit
        | str s => intro it hit; simp at hit
        | obj o => intro it hit; simp at hit
    obtain ⟨counts, hcounts, hstr⟩ :=
      tallyFrom_ok (issueListOf (pyGetD kvs "issues" (Json.arr []))) []
        hIL (by intro kv hkv; simp at hkv)
    obtain ⟨ctxt, hctxt⟩ := countsTxtOf_ok hstr
    refine ⟨"Closeout Summary\n- Gates: mass=" ++
      pyStr (pyGetD g "mass_gate" (Json.str "Unknown")) ++
      ", disk_area=" ++ pyStr (pyGetD g "disk_area_gate" (Json.str "Unknown")) ++
      ", power=" ++ pyStr (pyGetD g "power_gate" (Json.str "Unknown")) ++
      "\n- Issue counts: " ++ ctxt ++ "\n- Top issues:\n" ++
      topTxtOf (issueListOf (pyGetD kvs "issues" (Json.arr []))) ++ "\n", ?_⟩
    simp only [summarizeReport, pyGet, hG, bind, Except.bind, tally, hcounts,
      hctxt, pure, Except.pure]
  | null => simp [safeReport] at h
  | bool b => simp [safeReport] at h
  | num n => simp [safeReport] at h
  | str s => simp [safeReport] at h
  | arr xs => simp [safeReport] at h

/-- Witness for C2 (amended) at the design document's example report. -/
theorem summarizer_total_on_safe_reports_witness :
    (summarizeReport (.obj [("gates", .obj [("mass_gate", .str "Pass"),
      ("disk_area_gate", .str "Pass"), ("power_gate", .str "Pass")]),
      ("issues", .arr [])])).isOk = true := by
  obtain ⟨s, hs⟩ := summarizer_total_on_safe_reports
    (.obj [("gates", .obj [("mass_gate", .str "Pass"),
      ("disk_area_gate", .str "Pass"), ("power_gate", .str "Pass")]),
      ("issues", .arr [])]) (by rfl)
  rw [hs]; rfl

lemma string_length_take (s : String) (n : Nat) : (s.take n).length = min n s.length := by
  rw [String.take_eq]
  exact List.length_take n s.data

lemma safeStr_within {s : String} {maxLen : Int} (h : (s.length : Int) ≤ maxLen) :
    safeStr (.str s) maxLen = s := by
  simp only [safeStr, pyStr]
  rw [if_pos h]

/-- C8: a message longer than the cap is truncated to exactly the cap
length and carries the trailing `"..."` marker (shown structurally: the
rendering is a prefix followed by the marker); a message within the cap is
rendered unchanged.  Stated for every cap of at least 3 characters, which
covers the two caps the code uses (the default 500 and the message cap
120). -/
theorem truncation_exact_cap (s : String) (maxLen : Int) (hcap : 3 ≤ maxLen) :
    ((maxLen < (s.length : Int)) →
      safeStr (.str s) maxLen = s.take (maxLen - 3).toNat ++ "..." ∧
      ((safeStr (.str s) maxLen).length : Int) = maxLen) ∧
    (((s.length : Int) ≤ maxLen) → safeStr (.str s) maxLen = s) := by
  constructor
  · intro hlong
    have hnot : ¬ (((s.length : Int)) ≤ maxLen) := by omega
    have h1 : safeStr (.str s) maxLen = pySliceTo s (maxLen - 3) ++ "..." := by
      simp only [safeStr, pyStr]
      rw [if_neg hnot]
    have h2 : pySliceTo s (maxLen - 3) = s.take (maxLen - 3).toNat := by
      unfold pySliceTo
      rw [if_pos (by omega)]
    refine ⟨by rw [h1, h2], ?_⟩
    rw [h1, h2, String.length_append, string_length_take]
    have htk : (maxLen - 3).toNat ≤ s.length := by omega
    rw [min_eq_left htk]
    have h3 : ("..." : String).length = 3 := rfl
    rw [h3]
    omega
  · intro hshort
    exact safeStr_within hshort

/-- Witness for C8: a 500-character message with cap 120 renders exactly
120 characters ending in the ellipsis marker. -/
theorem truncation_exact_cap_witness :
    safeStr (.str longMsg) 120 = longMsg.take ((120 : Int) - 3).toNat ++ "..." ∧
    ((safeStr (.str longMsg) 120).length : Int) = 120 := by
  have hlen : longMsg.length = 500 := by
    show (List.replicate 500 'a').length = 500
    rw [List.length_replicate]
  exact (truncation_exact_cap longMsg 120 (by norm_num)).1 (by rw [hlen]; norm_num)

lemma keyEq_eq_canon (a b : Json) :
    keyEq a b = true ↔ (keyCanon a = keyCanon b ∧ keyCanon a ≠ .knone) := by
  cases a <;> cases b <;> simp [keyEq, keyCanon]
  rename_i x y
  cases x <;> cases y <;> simp

lemma keyEq_symm {a b : Json} (h : keyEq a b = true) : keyEq b a = true := by
  obtain ⟨hc, hn⟩ := (keyEq_eq_canon a b).mp h
  exact (keyEq_eq_canon b a).mpr ⟨hc.symm, hc ▸ hn⟩

lemma keyEq_trans {a b c : Json} (h₁ : keyEq a b = true) (h₂ : keyEq b c = true) :
    keyEq a c = true := by
  obtain ⟨hc₁, hn₁⟩ := (keyEq_eq_canon a b).mp h₁
  obtain ⟨hc₂, _⟩ := (keyEq_eq_canon b c).mp h₂
  exact (keyEq_eq_canon a c).mpr ⟨hc₁.trans hc₂, hn₁⟩

lemma lookupCount_cons_eq {k' : Json} {v : Nat} {tl : List (Json × Nat)} {k : Json}
    (h : keyEq k' k = true) : lookupCount ((k', v) :: tl) k = v := by
  simp [lookupCount, List.find?, h]

lemma lookupCount_cons_ne {k' : Json} {v : Nat} {tl : List (Json × Nat)} {k : Json}
    (h : keyEq k' k = false) : lookupCount ((k', v) :: tl) k = lookupCount tl k := by
  simp [lookupCount, List.find?, h]

lemma lookupCount_bump : ∀ (c : List (Json × Nat)) (k₀ k : Json),
    lookupCount (bumpCount c k₀) k =
      if keyEq k₀ k = true then lookupCount c k + 1 else lookupCount c k
  | [], k₀, k => by
    by_cases h : keyEq k₀ k = true
    · rw [if_pos h]
      show lookupCount [(k₀, 1)] k = lookupCount [] k + 1
      rw [lookupCount_cons_eq h]
      rfl
    · rw [if_neg h]
      show lookupCount [(k₀, 1)] k = lookupCount [] k
      rw [lookupCount_cons_ne (Bool.eq_false_iff.mpr h)]
  | (k', v) :: tl, k₀, k => by
    by_cases h1 : keyEq k' k₀ = true
    · have hb : bumpCount ((k', v) :: tl) k₀ = (k', v + 1) :: tl := by
        simp [bumpCount, h1]
      rw [hb]
      by_cases h2 : keyEq k' k = true
      · have h3 : keyEq k₀ k = true := keyEq_trans (keyEq_symm h1) h2
        rw [if_pos h3, lookupCount_cons_eq h2, lookupCount_cons_eq h2]
      · have h2' : keyEq k' k = false := Bool.eq_false_iff.mpr h2
        have h3 : ¬ keyEq k₀ k = true := fun hc => h2 (keyEq_trans h1 hc)
        rw [if_neg h3, lookupCount_cons_ne h2', lookupCount_cons_ne h2']
    · have h1' : keyEq k' k₀ = false := Bool.eq_false_iff.mpr h1
      have hb : bumpCount ((k', v) :: tl) k₀ = (k', v) :: bumpCount tl k₀ := by
        simp [bumpCount, h1']
      rw [hb]
      by_cases h2 : keyEq k' k = true
      · have h3 : ¬ keyEq k₀ k = true := fun hc => h1 (keyEq_trans h2 (keyEq_symm hc))
        rw [if_neg h3, lookupCount_cons_eq h2, lookupCount_cons_eq h2]
      · have h2' : keyEq k' k = false := Bool.eq_false_iff.mpr h2
        rw [lookupCount_cons_ne h2', lookupCount_cons_ne h2', lookupCount_bump tl k₀ k]

lemma tallyFrom_count : ∀ (xs : List Json) (c c' : List (Json × Nat)),
    tallyFrom c xs = .ok c' → ∀ k, lookupCount c' k = lookupCount c k + countOf xs k
  | [], c, c', h, k => by
    obtain rfl : c = c' := Except.ok.inj h
    simp [countOf]
  | it :: rest, c, c', h, k => by
    have hmatch : tallyFrom c (it :: rest) =
        if hashableKey (issueKind it) = true then
          tallyFrom (bumpCount c (issueKind it)) rest
        else .error .typeError := rfl
    rw [hmatch] at h
    by_cases hh : hashableKey (issueKind it) = true
    · rw [if_pos hh] at h
      have ih := tallyFrom_count rest (bumpCount c (issueKind it)) c' h k
      rw [ih, lookupCount_bump]
      by_cases he : keyEq (issueKind it) k = true
      · simp [countOf, List.filter_cons, he]
        omega
      · simp [countOf, List.filter_cons, Bool.eq_false_iff.mpr he]
    · rw [if_neg hh] at h
      exact absurd h (by simp)

/-- C7 (amended): the tally groups issues by `kind`: entries that are not
records, and record entries with a missing `kind`, each fall once into the
default `Unknown` bucket, while a present `kind` value is used as the
bucket key as it is, whatever its type; whenever the tally completes, each
bucket holds exactly the number of entries with that key; with string
category names the rendering sorts the buckets by name (a permutation of
the tally, sorted under the by-name order) and formats them `key=count`
joined by `", "`; an empty tally renders the literal `none`. -/
theorem issue_tally_grouping :
    (∀ it, isRecord it = false → issueKind it = .str "Unknown") ∧
    (∀ kvs, List.lookup "kind" kvs = none → issueKind (.obj kvs) = .str "Unknown") ∧
    (∀ kvs v, List.lookup "kind" kvs = some v → issueKind (.obj kvs) = v) ∧
    (∀ xs c, tally xs = .ok c → ∀ k, lookupCount c k = countOf xs k) ∧
    (∀ c, 2 ≤ c.length → (∀ kv ∈ c, keyIsStr kv.1 = true) →
      sortCounts c = .ok (List.insertionSort strKeyLe c) ∧
      List.Sorted strKeyLe (List.insertionSort strKeyLe c) ∧
      (List.insertionSort strKeyLe c).Perm c) ∧
    (countsTxtOf [] = .ok "none") ∧
    (∀ c sc, sortCounts c = .ok sc → c ≠ [] →
      countsTxtOf c = .ok (String.intercalate ", " (sc.map countItemTxt))) := by
  refine ⟨?_, ?_, ?_, ?_, ?_, rfl, ?_⟩
  · intro it h
    cases it <;> simp [isRecord] at h ⊢ <;> rfl
  · intro kvs h
    show (List.lookup "kind" kvs).getD (Json.str "Unknown") = Json.str "Unknown"
    rw [h]
    rfl
  · intro kvs v h
    show (List.lookup "kind" kvs).getD (Json.str "Unknown") = v
    rw [h]
    rfl
  · intro xs c h k
    have := tallyFrom_count xs [] c h k
    simpa [lookupCount] using this
  · intro c hlen hstr
    have hall : c.all (fun kv => keyIsStr kv.1) = true := List.all_eq_true.mpr hstr
    have hnot : ¬ (c.length ≤ 1) := by omega
    refine ⟨by simp [sortCounts, hnot, hall], List.sorted_insertionSort strKeyLe c,
      List.perm_insertionSort strKeyLe c⟩
  · intro c sc hsort hne
    have he : c.isEmpty = false := by
      cases c with
      | nil => exact absurd rfl hne
      | cons hd tl => rfl
    simp [countsTxtOf, he, hsort, Except.map]

/-- Witness for C7 (amended): the tally of three issues with kinds `A`,
`B`, `A` holds `A` with count 2. -/
theorem issue_tally_grouping_witness :
    lookupCount [(Json.str "A", 2), (Json.str "B", 1)] (Json.str "A") =
      countOf [Json.obj [("kind", Json.str "A")], Json.obj [("kind", Json.str "B")],
        Json.obj [("kind", Json.str "A")]] (Json.str "A") :=
  issue_tally_grouping.2.2.2.1
    [Json.obj [("kind", Json.str "A")], Json.obj [("kind", Json.str "B")],
      Json.obj [("kind", Json.str "A")]]
    [(Json.str "A", 2), (Json.str "B", 1)] rfl (Json.str "A")

lemma filterMap_all_some_length : ∀ (l : List Json),
    (∀ it ∈ l, (renderIssue it).isSome = true) →
    (l.filterMap renderIssue).length = l.length
  | [], _ => rfl
  | it :: tl, h => by
    have hit := h it (List.mem_cons_self _ _)
    cases hr : renderIssue it with
    | none => rw [hr] at hit; simp at hit
    | some s =>
      rw [List.filterMap_cons_some hr]
      simp only [List.length_cons]
      rw [filterMap_all_some_length tl (fun i hi => h i (List.mem_cons_of_mem _ hi))]

/-- C6 (amended): detail rendering draws from the first five issue entries
only, so never renders more than five lines; when at least five entries
are present and every entry renders (is a record whose code or message
converts to nonempty text), exactly five lines are rendered — in
particular seven such issues yield exactly five lines; a record with
in-cap nonempty code renders as the whitespace-stripped line
`"- <code>: <message>"`; and when no line is produced the block is exactly
`"- (none)"`.  A record issue whose code and message are both empty or
absent produces no detail line (the counterexample theorem shows this). -/
theorem top_issues_rendering :
    (∀ xs : List Json, (topLinesOf xs).length ≤ 5) ∧
    (∀ xs : List Json, 5 ≤ xs.length →
      (∀ it ∈ xs, (renderIssue it).isSome = true) → (topLinesOf xs).length = 5) ∧
    (∀ c m : String, c ≠ "" → (c.length : Int) ≤ 500 → (m.length : Int) ≤ 120 →
      renderIssue (.obj [("code", .str c), ("message", .str m)]) =
        some (("- " ++ c ++ ": " ++ m).trim)) ∧
    (∀ xs : List Json, topLinesOf xs = [] → topTxtOf xs = "- (none)") := by
  refine ⟨?_, ?_, ?_, ?_⟩
  · intro xs
    calc (topLinesOf xs).length ≤ (xs.take 5).length :=
          List.length_filterMap_le _ _
    _ ≤ 5 := List.length_take_le _ _
  · intro xs hlen hall
    unfold topLinesOf
    rw [filterMap_all_some_length _ (fun it hit => hall it (List.take_subset 5 xs hit))]
    rw [List.length_take]
    omega
  · intro c m hc h5 h120
    have h1 : pyGetD [("code", Json.str c), ("message", Json.str m)] "code"
        (Json.str "") = Json.str c := rfl
    have h2 : pyGetD [("code", Json.str c), ("message", Json.str m)] "message"
        (Json.str "") = Json.str m := rfl
    have hcode : safeStr (Json.str c) = c := safeStr_within h5
    have hmsg : safeStr (Json.str m) 120 = m := safeStr_within h120
    simp only [renderIssue, h1, h2, hcode, hmsg]
    rw [if_neg (fun hcm => hc hcm.1)]
  · intro xs h
    simp only [topTxtOf]
    rw [h]
    rfl

/-- Witness for C6 (amended): seven record issues, each with the nonempty
code `X`, render exactly five detail lines. -/
theorem top_issues_rendering_witness :
    (topLinesOf (List.replicate 7
      (Json.obj [("code", Json.str "X"), ("kind", Json.str "A")]))).length = 5 :=
  top_issues_rendering.2.1 _ (by decide) (by decide)

/-- C9 (amended): each gate verdict is extracted independently from the
`gates` object with default `"Unknown"` when the field is absent; a
present value is taken as it is — a non-string verdict is rendered by its
string conversion, not replaced by `"Unknown"` (the counterexample
theorem shows this); the summary line renders the three
extracted values (shown for every report with a `gates` object and an
empty issue list). -/
theorem gate_extraction_defaults :
    (∀ g name, List.lookup name g = none →
      pyGet (.obj g) name (.str "Unknown") = .ok (.str "Unknown")) ∧
    (∀ g name v, List.lookup name g = some v →
      pyGet (.obj g) name (.str "Unknown") = .ok v) ∧
    (∀ g, summarizeReport (.obj [("gates", .obj g), ("issues", .arr [])]) =
      .ok ("Closeout Summary\n- Gates: mass=" ++
        pyStr (pyGetD g "mass_gate" (.str "Unknown")) ++
        ", disk_area=" ++ pyStr (pyGetD g "disk_area_gate" (.str "Unknown")) ++
        ", power=" ++ pyStr (pyGetD g "power_gate" (.str "Unknown")) ++
        "\n- Issue counts: " ++ "none" ++ "\n- Top issues:\n" ++ "- (none)" ++ "\n")) := by
  refine ⟨?_, ?_, ?_⟩
  · intro g name h
    show Except.ok ((List.lookup name g).getD (Json.str "Unknown")) = _
    rw [h]
    rfl
  · intro g name v h
    show Except.ok ((List.lookup name g).getD (Json.str "Unknown")) = _
    rw [h]
    rfl
  · intro g
    rfl

/-- Witness for C9 (amended): the absent field defaults to `Unknown`, the
present non-string value 42 is extracted as itself, and the design
document's all-`Pass` example renders the expected summary. -/
theorem gate_extraction_defaults_witness :
    pyGet (.obj []) "mass_gate" (.str "Unknown") = .ok (.str "Unknown") ∧
    pyGet (.obj [("mass_gate", Json.num 42)]) "mass_gate" (.str "Unknown") =
      .ok (.num 42) ∧
    summarizeReport (.obj [("gates", .obj [("mass_gate", .str "Pass"),
      ("disk_area_gate", .str "Pass"), ("power_gate", .str "Pass")]),
      ("issues", .arr [])]) =
      .ok "Closeout Summary\n- Gates: mass=Pass, disk_area=Pass, power=Pass\n- Issue counts: none\n- Top issues:\n- (none)\n" := by
  refine ⟨gate_extraction_defaults.1 [] "mass_gate" rfl,
    gate_extraction_defaults.2.1 [("mass_gate", Json.num 42)] "mass_gate"
      (Json.num 42) rfl, ?_⟩
  have h := gate_extraction_defaults.2.2 [("mass_gate", Json.str "Pass"),
    ("disk_area_gate", Json.str "Pass"), ("power_gate", Json.str "Pass")]
  rw [h]
  rfl

/-- C3 (amended): the Frontend forwards the evaluator's exit code verbatim
for every completed invocation in which the summary step does not itself
raise (no parsed report, or a report the summarizer accepts), and returns
the fixed local exit code 1 on every orchestration failure (binary
missing, timeout, spawn failure) — likewise the sibling wrapper
`run_closeout_demo`.  Because the evaluator's own exit code 1 is also
forwarded verbatim, the code 1 does not let callers distinguish the two
cases (the counterexample theorem shows this). -/
theorem frontend_exit_code_propagation :
    (∀ pf rf op c out err res,
      run_closeout pf rf true (.completed c out err) op = .ok res →
      (res.out_json = none → mainRun pf rf true (.completed c out err) op = .ok c) ∧
      (∀ j s, res.out_json = some j → summarizeReport j = .ok s →
        mainRun pf rf true (.completed c out err) op = .ok c)) ∧
    (∀ pf rf oc op, mainRun pf rf false oc op = .ok 1) ∧
    (∀ pf rf op, mainRun pf rf true .timeout op = .ok 1 ∧
      mainRun pf rf true .spawnFailure op = .ok 1) ∧
    (∀ c out err, run_closeout_demo (.completed c out err) = c) ∧
    (run_closeout_demo .spawnFailure = 1 ∧ run_closeout_demo .timeout = 1) := by
  refine ⟨?_, fun pf rf oc op => rfl, fun pf rf op => ⟨rfl, rfl⟩,
    fun c out err => rfl, ⟨rfl, rfl⟩⟩
  intro pf rf op c out err res h
  cases op with
  | some p =>
    cases hrf : rf p with
    | ok j₀ =>
      have hdef : run_closeout pf rf true (.completed c out err) (some p) =
          .ok ⟨c, statusFromExitCode c, some p, out, err, some j₀⟩ := by
        simp [run_closeout, hrf]
      have hres := Except.ok.inj (hdef.symm.trans h)
      subst hres
      refine ⟨fun hnone => by simp at hnone, fun j s hsome hsum => ?_⟩
      obtain rfl : j₀ = j := by simpa using hsome
      simp [mainRun, hdef, hsum]
    | error msg =>
      have hdef : run_closeout pf rf true (.completed c out err) (some p) =
          .ok ⟨c, statusFromExitCode c, some p, out, err, none⟩ := by
        simp [run_closeout, hrf]
      have hres := Except.ok.inj (hdef.symm.trans h)
      subst hres
      refine ⟨fun _ => by simp [mainRun, hdef], fun j s hsome hsum => ?_⟩
      simp at hsome
  | none =>
    cases hpf : pf out with
    | ok j₀ =>
      have hdef : run_closeout pf rf true (.completed c out err) none =
          .ok ⟨c, statusFromExitCode c, none, out, err, some j₀⟩ := by
        simp [run_closeout, hpf]
      have hres := Except.ok.inj (hdef.symm.trans h)
      subst hres
      refine ⟨fun hnone => by simp at hnone, fun j s hsome hsum => ?_⟩
      obtain rfl : j₀ = j := by simpa using hsome
      simp [mainRun, hdef, hsum]
    | error msg =>
      have hdef : run_closeout pf rf true (.completed c out err) none =
          .ok ⟨c, statusFromExitCode c, none, out, err, none⟩ := by
        simp [run_closeout, hpf]
      have hres := Except.ok.inj (hdef.symm.trans h)
      subst hres
      refine ⟨fun _ => by simp [mainRun, hdef], fun j s hsome hsum => ?_⟩
      simp at hsome

/-- Witness for C3 (amended): a completed evaluator run with exit code 7
whose stdout parses to a report the summarizer accepts is forwarded
verbatim. -/
theorem frontend_exit_code_propagation_witness :
    mainRun okOracle okOracle true (.completed 7 "" "") none = .ok 7 :=
  (frontend_exit_code_propagation.1 okOracle okOracle none 7 "" ""
    ⟨7, statusFromExitCode 7, none, "", "", some (.obj [])⟩ rfl).2 (.obj [])
    "Closeout Summary\n- Gates: mass=Unknown, disk_area=Unknown, power=Unknown\n- Issue counts: none\n- Top issues:\n- (none)\n"
    rfl rfl
